import Mathlib

/-!
Verification development for the clinical-trial screening backend.

The definitions below are a shallow embedding of the conversation state
machine and the eligibility decision engine of the repository:

* `EligibilityEvaluator.decide` and `EligibilityEvaluator.evaluate_eligibility`
  embed `backend/eligibility_evaluator.py` (confidences and scores are modelled
  as exact rationals; the source uses Python floats).
* `QuestioningAgent.process_input` and `QuestioningAgent.classify_user_intent`
  embed `backend/agents/questioning_agent.py` (the external LLM classifier and
  the free-text responder are modelled as explicit inputs).
* `SubmissionAgent.process_input` and
  `SubmissionAgent.classify_submission_user_intent` embed
  `backend/agents/submission_agent.py`.
* `ClinicalTrialCoordinator.construct` and
  `ClinicalTrialCoordinator.process_user_response` embed
  `backend/agents/coordinator.py` (state-transition logic; the agent call of a
  turn is modelled by passing the returned turn-response dictionary as input).
-/

/-- Criterion priority; the source stores the strings "high", "medium", "low". -/
inductive Priority : Type
| high : Priority
| medium : Priority
| low : Priority
deriving DecidableEq, Repr

/-- `TrialCriteria` dataclass from `backend/models.py`. -/
structure TrialCriteria : Type where
  id : String
  text : String
  question : String
  expected_response : String
  priority : Priority
deriving DecidableEq, Repr

/-- `ParticipantSession` from `backend/models.py`; the `responses` dict is
modelled as a partial map from criterion id to answer text. -/
structure ParticipantSession : Type where
  session_id : String
  participant_id : String
  responses : String → Option String

/-- `self.HIGH_PRIORITY_CONFIDENCE_THRESHOLD = 0.8` in the evaluator. -/
def HIGH_PRIORITY_CONFIDENCE_THRESHOLD : ℚ := 4/5

/-- `self.DECISION_THRESHOLD = 0.0` in the evaluator. -/
def DECISION_THRESHOLD : ℚ := 0

/-- `self.weights = {'high': 5.0, 'medium': 2.5, 'low': 1.0}`. -/
def weights : Priority → ℚ
| Priority.high => 5
| Priority.medium => 5/2
| Priority.low => 1

/-- The immediate-reject test from step 1 of `EligibilityEvaluator.decide`:
`cat == 'high' and result_str == 'No' and conf >= 0.8`.  A triple is
`(category, result, confidence)`; the source normalises `result` to a
`'Yes'`/`'No'` string, which the `Bool` here already is. -/
def isImmediateReject (q : Priority × Bool × ℚ) : Bool :=
  q.1 == Priority.high && !q.2.1 && decide (HIGH_PRIORITY_CONFIDENCE_THRESHOLD ≤ q.2.2)

/-- `sign = +1 if result_str == 'Yes' else -1`. -/
def signOf (result : Bool) : ℚ := if result then 1 else -1

/-- One summand of step 2 of `decide`: `sign * conf * self.weights[cat]`. -/
def scoreOf (q : Priority × Bool × ℚ) : ℚ := signOf q.2.1 * q.2.2 * weights q.1

/-- `total` accumulated by the loop in step 2 of `decide`. -/
def totalScore (questions : List (Priority × Bool × ℚ)) : ℚ :=
  (questions.map scoreOf).sum

/-- `EligibilityEvaluator.decide` from `backend/eligibility_evaluator.py`:
immediate-reject loop, then weighted total against the threshold. -/
def EligibilityEvaluator.decide (questions : List (Priority × Bool × ℚ)) : String :=
  if questions.any isImmediateReject then "Reject"
  else if DECISION_THRESHOLD ≤ totalScore questions then "Accept" else "Reject"

/-- `session.responses.get(criteria.id, "")` in `evaluate_eligibility`. -/
def getResponse (session : ParticipantSession) (cid : String) : String :=
  (session.responses cid).getD ""

/-- The criteria kept by the `if response:` filter in `evaluate_eligibility`
(those whose stored response is a non-empty string). -/
def answeredCriteria (criteria : List TrialCriteria) (session : ParticipantSession) :
    List TrialCriteria :=
  criteria.filter (fun c => getResponse session c.id != "")

/-- The structured judgment requested from the Criterion Judge LLM call:
`{meets_criteria, confidence, reasoning, extracted_value}`. -/
structure JudgeOutput : Type where
  meets_criteria : Bool
  confidence : ℚ
  reasoning : String
  extracted_value : Option String
deriving DecidableEq, Repr

/-- One entry of `criteria_results` in `evaluate_eligibility`: the judge output
together with the metadata added by `_evaluate_single_criteria_async`. -/
structure CriteriaResult : Type where
  criteria_id : String
  criteria_text : String
  criteria_question : String
  expected_response : String
  priority : Priority
  participant_response : String
  meets_criteria : Bool
  confidence : ℚ
  reasoning : String
  extracted_value : Option String
deriving DecidableEq, Repr

/-- `EligibilityEvaluator._evaluate_single_criteria_async`.  The external
Criterion Judge call is an explicit argument; `Except.error e` models the call
raising an exception (or returning malformed JSON) with message `e`, in which
case the `except` clause substitutes the conservative default judgment. -/
def evaluateSingleCriteria (judge : TrialCriteria → String → Except String JudgeOutput)
    (c : TrialCriteria) (response : String) : CriteriaResult :=
  match judge c response with
  | Except.ok j =>
    { criteria_id := c.id, criteria_text := c.text, criteria_question := c.question,
      expected_response := c.expected_response, priority := c.priority,
      participant_response := response, meets_criteria := j.meets_criteria,
      confidence := j.confidence, reasoning := j.reasoning,
      extracted_value := j.extracted_value }
  | Except.error e =>
    { criteria_id := c.id, criteria_text := c.text, criteria_question := c.question,
      expected_response := c.expected_response, priority := c.priority,
      participant_response := response, meets_criteria := false, confidence := 0,
      reasoning := "Evaluation error: " ++ e, extracted_value := none }

/-- The `next((c for c in self.trial_criteria if c.id == criteria_id), None)`
lookup of `evaluate_eligibility`, paired with the evaluation it was found
for; evaluations whose id matches no criterion are dropped, as in the source. -/
def foundPairs (criteria : List TrialCriteria) (results : List CriteriaResult) :
    List (TrialCriteria × CriteriaResult) :=
  results.filterMap
    (fun ev => (criteria.find? (fun c => c.id == ev.criteria_id)).map (fun c => (c, ev)))

/-- The `questions` list handed to `decide` by `evaluate_eligibility`. -/
def assembleQuestions (criteria : List TrialCriteria) (results : List CriteriaResult) :
    List (Priority × Bool × ℚ) :=
  (foundPairs criteria results).map (fun p => (p.1.priority, p.2.meets_criteria, p.2.confidence))

/-- The legacy reporting weight:
`5 if priority == "high" else 2 if priority == "medium" else 1`. -/
def legacyWeight : Priority → ℚ
| Priority.high => 5
| Priority.medium => 2
| Priority.low => 1

/-- Model of Python `round(x, 1)` (Python uses banker's rounding, which differs
only at exact ties; no claim exercises a tie). -/
def round1 (x : ℚ) : ℚ := (round (x * 10) : ℤ) / 10

/-- Model of Python `round(x, 2)`. -/
def round2 (x : ℚ) : ℚ := (round (x * 100) : ℤ) / 100

/-- The result dictionary built by `evaluate_eligibility` (timestamp, summary
text and participant id omitted). -/
structure EvalResult : Type where
  eligible : Bool
  score : ℚ
  criteria_met : List CriteriaResult
  high_priority_met : ℕ
  high_priority_total : ℕ
  decision_algorithm_score : ℚ
  decision_algorithm_result : String
deriving Repr

/-- `EligibilityEvaluator.evaluate_eligibility`: judge every criterion with a
non-empty stored response (failures replaced per criterion by the conservative
default), assemble the `(priority, meets_criteria, confidence)` triples via the
id lookup, compute the legacy percentage score and the decision algorithm
verdict. -/
def EligibilityEvaluator.evaluate_eligibility
    (judge : TrialCriteria → String → Except String JudgeOutput)
    (criteria : List TrialCriteria) (session : ParticipantSession) : EvalResult :=
  let results := (answeredCriteria criteria session).map
    (fun c => evaluateSingleCriteria judge c (getResponse session c.id))
  let pairs := foundPairs criteria results
  let questions := assembleQuestions criteria results
  let max_score := (pairs.map (fun p => legacyWeight p.1.priority)).sum
  let total_score :=
    (pairs.map (fun p => if p.2.meets_criteria then legacyWeight p.1.priority else 0)).sum
  let overall_score := if 0 < max_score then total_score / max_score * 100 else 0
  let decision := EligibilityEvaluator.decide questions
  { eligible := decision == "Accept",
    score := round1 overall_score,
    criteria_met := results,
    high_priority_met :=
      (pairs.filter (fun p => p.1.priority == Priority.high && p.2.meets_criteria)).length,
    high_priority_total := (pairs.filter (fun p => p.1.priority == Priority.high)).length,
    decision_algorithm_score := round2 (totalScore questions),
    decision_algorithm_result := decision }

/-- Concrete criterion used by witnesses (Scenario A of the spec). -/
def critAge : TrialCriteria :=
  { id := "age", text := "Age 18-75", question := "What is your age?",
    expected_response := "A number between 18 and 75", priority := Priority.high }

/-- Second concrete criterion used by witnesses. -/
def critSmoke : TrialCriteria :=
  { id := "smoking", text := "Non-smoker", question := "Do you smoke?",
    expected_response := "No", priority := Priority.medium }

/-- A concrete session with answers for `critAge` and `critSmoke`. -/
def sessionTwoAnswers : ParticipantSession :=
  { session_id := "s1", participant_id := "p1",
    responses := fun k => if k = "age" then some "I am 30" else
      if k = "smoking" then some "no" else none }

/-- A concrete session with no stored responses. -/
def sessionEmpty : ParticipantSession :=
  { session_id := "s2", participant_id := "p2", responses := fun _ => none }

/-- A concrete judge that fails on the age criterion and succeeds elsewhere. -/
def judgeAgeFails : TrialCriteria → String → Except String JudgeOutput :=
  fun c _ =>
    if c.id = "age" then Except.error "boom"
    else Except.ok { meets_criteria := true, confidence := 9/10, reasoning := "ok",
                     extracted_value := none }

/-- Model of Python `str.strip()`: drop leading and trailing whitespace.
(Defined over the character list so that it evaluates by kernel reduction;
`String.trim` is byte-position based and does not.) -/
def pyStrip (s : String) : String :=
  String.mk (((s.data.dropWhile Char.isWhitespace).reverse.dropWhile Char.isWhitespace).reverse)

/-- Model of Python `str.lower()` (same remark as for `pyStrip`). -/
def pyLower (s : String) : String := String.mk (s.data.map Char.toLower)

/-- An apostrophe character, used to build response strings. -/
def apos : String := String.singleton (Char.ofNat 39)

/-- "I didn't catch that clearly. Please speak more clearly, or speak in the
language you selected." (shared by the questioning and submission agents). -/
def ambiguousSpeechContent : String :=
  "I didn" ++ apos ++
    "t catch that clearly. Please speak more clearly, or speak in the language you selected."

/-- Decline message of the questioning agent. -/
def questioningDeclineContent : String :=
  "I understand. Thank you for your time. If you change your mind and would like to participate in the future, feel free to try again."

/-- Decline message of the submission agent. -/
def submissionDeclineContent : String :=
  "I understand. Thank you for taking the time to answer the screening questions. If you change your mind and would like to participate in the future, feel free to try again."

/-- The submission prompt (emitted on transition out of questioning, by the
submission agent's initial message, and by its repeat_instruction branch). -/
def submissionPromptContent : String :=
  "Thank you for answering all the screening questions. Would you like to submit your responses for evaluation, or do you have any questions about the study before deciding?"

/-- "We've completed all the screening questions." -/
def completedAllQuestionsContent : String :=
  "We" ++ apos ++ "ve completed all the screening questions."

/-- Fallback of `QuestioningAgent.process_input` past the end of the criteria
list, also the coordinator's default fallback content. -/
def interviewCompletedContent : String := "Interview completed. Thank you for your time!"

/-- Content of the submit branch of the submission agent. -/
def evaluatingContent : String := "Evaluating your responses..."

/-- Content of the coordinator's `_handle_evaluation_completion`. -/
def evaluationCompletionContent : String :=
  "Thank you for completing the screening interview! Your responses have been recorded and evaluated."

/-- The turn-response dictionary built by `BaseAgent._create_response` and the
coordinator.  Optional dictionary keys are modelled by `Option`/default-false
fields (`response.get(key)` on a missing key is falsy). -/
structure TurnResponse : Type where
  content : String
  requires_response : Bool
  is_final : Bool := false
  total_questions : ℕ
  question_number : Option ℕ := none
  transition_to : Option String := none
  consent_rejected : Bool := false
  awaiting_submission : Bool := false
  evaluating : Bool := false
deriving DecidableEq, Repr

/-- The mutable state of the questioning agent: its criteria index and the
session's `responses` dict. -/
structure QuestioningState : Type where
  current_criteria_index : ℕ
  responses : String → Option String

/-- `session.responses` of a fresh session (empty dict). -/
def initResponses : String → Option String := fun _ => none

/-- Python `responses[k] = v` (insert or overwrite). -/
def setResponse (m : String → Option String) (k v : String) : String → Option String :=
  fun q => if q = k then some v else m q

/-- Python `del responses[k]` guarded by `if k in responses` (key removal). -/
def deleteResponse (m : String → Option String) (k : String) : String → Option String :=
  fun q => if q = k then none else m q

/-- `QuestioningAgent._ask_current_criteria_question`. -/
def QuestioningAgent.ask_current_criteria_question (criteria : List TrialCriteria)
    (st : QuestioningState) : TurnResponse :=
  if h : st.current_criteria_index < criteria.length then
    { content := (criteria.get ⟨st.current_criteria_index, h⟩).question,
      requires_response := true,
      question_number := some (st.current_criteria_index + 1),
      total_questions := criteria.length }
  else
    { content := completedAllQuestionsContent,
      requires_response := false,
      question_number := some criteria.length,
      total_questions := criteria.length }

/-- The response of the answer branch once every criterion is answered:
transition to submission. -/
def QuestioningAgent.submission_transition_response (criteria : List TrialCriteria) :
    TurnResponse :=
  { content := submissionPromptContent,
    requires_response := true,
    transition_to := some "submission",
    awaiting_submission := true,
    question_number := some criteria.length,
    total_questions := criteria.length }

/-- `QuestioningAgent.process_input`.  The classified intent is an argument
(the source computes it by an LLM call through `_classify_user_intent`);
`unclear_content` is the text produced by the external free-text responder for
the unclear branch.  Returns the successor agent state (index and session
responses) and the turn response. -/
def QuestioningAgent.process_input (criteria : List TrialCriteria) (st : QuestioningState)
    (user_input intent unclear_content : String) : QuestioningState × TurnResponse :=
  if h : st.current_criteria_index < criteria.length then
    let current := criteria.get ⟨st.current_criteria_index, h⟩
    if intent = "ambiguous" then
      (st, { content := ambiguousSpeechContent,
             requires_response := true,
             question_number := some (st.current_criteria_index + 1),
             total_questions := criteria.length })
    else if intent = "unclear" then
      (st, { content := unclear_content,
             requires_response := true,
             question_number := some (st.current_criteria_index + 1),
             total_questions := criteria.length })
    else if intent = "decline" then
      (st, { content := questioningDeclineContent,
             requires_response := false,
             is_final := true,
             consent_rejected := true,
             question_number := some (st.current_criteria_index + 1),
             total_questions := criteria.length })
    else if intent = "repeat_current" then
      (st, QuestioningAgent.ask_current_criteria_question criteria st)
    else if intent = "repeat_previous" then
      if h0 : 0 < st.current_criteria_index then
        let prev := criteria.get ⟨st.current_criteria_index - 1, by omega⟩
        let st2 : QuestioningState :=
          { current_criteria_index := st.current_criteria_index - 1,
            responses := deleteResponse st.responses prev.id }
        (st2, QuestioningAgent.ask_current_criteria_question criteria st2)
      else
        (st, QuestioningAgent.ask_current_criteria_question criteria st)
    else if intent = "answer" then
      let st2 : QuestioningState :=
        { current_criteria_index := st.current_criteria_index + 1,
          responses := setResponse st.responses current.id (pyStrip user_input) }
      if st2.current_criteria_index < criteria.length then
        (st2, QuestioningAgent.ask_current_criteria_question criteria st2)
      else
        (st2, QuestioningAgent.submission_transition_response criteria)
    else
      let st2 : QuestioningState :=
        { current_criteria_index := st.current_criteria_index + 1,
          responses := setResponse st.responses current.id (pyStrip user_input) }
      if st2.current_criteria_index < criteria.length then
        (st2, QuestioningAgent.ask_current_criteria_question criteria st2)
      else
        (st2, QuestioningAgent.submission_transition_response criteria)
  else
    (st, { content := interviewCompletedContent,
           requires_response := false,
           is_final := true,
           question_number := some criteria.length,
           total_questions := criteria.length })

/-- `QuestioningAgent._classify_user_intent`.  `llm` is the outcome of the
external chat-completion call: `some raw` is the returned label text and `none`
models the call raising an exception. -/
def QuestioningAgent.classify_user_intent (llm : Option String) (user_message : String) :
    String :=
  if pyStrip user_message = "Ambiguous sound." then "ambiguous"
  else
    match llm with
    | some raw =>
      let intent := pyLower (pyStrip raw)
      if intent = "repeat_current" ∨ intent = "repeat_previous" ∨ intent = "decline" ∨
          intent = "answer" ∨ intent = "unclear" then intent
      else "answer"
    | none => "answer"

/-- One turn fed to the questioning agent: the user input, the intent label the
classifier produced for it, and the free-text responder output for the unclear
branch. -/
structure QTurn : Type where
  user_input : String
  intent : String
  unclear_content : String

/-- A sequence of `QuestioningAgent.process_input` calls. -/
def runQuestioning (criteria : List TrialCriteria) : List QTurn → QuestioningState →
    QuestioningState
| [], st => st
| t :: ts, st =>
  runQuestioning criteria ts
    (QuestioningAgent.process_input criteria st t.user_input t.intent t.unclear_content).1

/-- Invariant of the questioning loop: the index is within bounds, and every
criterion strictly before the index either has a stored response or shares its
id with some criterion at or after the index (relevant only when ids repeat;
at index = length the second disjunct is vacuous). -/
def QInv (criteria : List TrialCriteria) (st : QuestioningState) : Prop :=
  st.current_criteria_index ≤ criteria.length ∧
  ∀ i : ℕ, ∀ hi : i < criteria.length, i < st.current_criteria_index →
    st.responses (criteria.get ⟨i, hi⟩).id ≠ none ∨
    ∃ j : ℕ, ∃ hj : j < criteria.length, st.current_criteria_index ≤ j ∧
      (criteria.get ⟨j, hj⟩).id = (criteria.get ⟨i, hi⟩).id

/-- `SubmissionAgent.get_initial_message`: the submission prompt. -/
def SubmissionAgent.initial_message (criteria : List TrialCriteria) : TurnResponse :=
  { content := submissionPromptContent,
    requires_response := true,
    awaiting_submission := true,
    question_number := some criteria.length,
    total_questions := criteria.length }

/-- `SubmissionAgent._classify_submission_user_intent`; defaults to
repeat_instruction on an invalid label or a failed call. -/
def SubmissionAgent.classify_submission_user_intent (llm : Option String)
    (user_message : String) : String :=
  if pyStrip user_message = "Ambiguous sound." then "ambiguous"
  else
    match llm with
    | some raw =>
      let intent := pyLower (pyStrip raw)
      if intent = "repeat_instruction" ∨ intent = "submit" ∨ intent = "decline" ∨
          intent = "study_question" ∨ intent = "unclear" then intent
      else "repeat_instruction"
    | none => "repeat_instruction"

/-- `SubmissionAgent.process_input`.  The agent never writes to the session:
the `responses` dict is threaded through unchanged on every branch, exactly as
in the source (which contains no assignment to it).  `unclear_content` is the
output of `_handle_unclear_submission_response` (an external free-text call),
used by both the study_question and the unclear branch. -/
def SubmissionAgent.process_input (criteria : List TrialCriteria)
    (responses : String → Option String) (_user_input intent unclear_content : String) :
    (String → Option String) × TurnResponse :=
  if intent = "ambiguous" then
    (responses, { content := ambiguousSpeechContent,
                  requires_response := true,
                  awaiting_submission := true,
                  question_number := some criteria.length,
                  total_questions := criteria.length })
  else if intent = "submit" then
    (responses, { content := evaluatingContent,
                  requires_response := false,
                  evaluating := true,
                  transition_to := some "evaluation",
                  question_number := some criteria.length,
                  total_questions := criteria.length })
  else if intent = "decline" then
    (responses, { content := submissionDeclineContent,
                  requires_response := false,
                  is_final := true,
                  consent_rejected := true,
                  question_number := some criteria.length,
                  total_questions := criteria.length })
  else if intent = "repeat_instruction" then
    (responses, { content := submissionPromptContent,
                  requires_response := true,
                  awaiting_submission := true,
                  question_number := some criteria.length,
                  total_questions := criteria.length })
  else if intent = "study_question" then
    (responses, { content := unclear_content,
                  requires_response := true,
                  awaiting_submission := true,
                  question_number := some criteria.length,
                  total_questions := criteria.length })
  else
    (responses, { content := unclear_content,
                  requires_response := true,
                  awaiting_submission := true,
                  question_number := some criteria.length,
                  total_questions := criteria.length })

/-- A study record of `study_eligibility_data.json` (only the id and criteria
matter for the claims; the free-form trial-info dictionary is omitted). -/
structure Study : Type where
  id : String
  criteria : List TrialCriteria

/-- `load_trial_criteria` from `backend/models.py`: the matching study's
criteria, or the empty list when the study id is unknown. -/
def load_trial_criteria (studies : List Study) (study_id : String) : List TrialCriteria :=
  match studies.find? (fun s => s.id == study_id) with
  | some s => s.criteria
  | none => []

/-- `get_study_details` from `backend/models.py`. -/
def get_study_details (studies : List Study) (study_id : String) : Option Study :=
  studies.find? (fun s => s.id == study_id)

/-- The coordinator fields relevant to the claims. -/
structure ClinicalTrialCoordinator : Type where
  study_id : String
  trial_criteria : List TrialCriteria
  conversation_state : String
  current_criteria_index : ℕ

/-- `ClinicalTrialCoordinator.__init__`: loads criteria and study details and
raises `ValueError("Study ... not found")` — modelled as `Except.error` — when
the study does not exist. -/
def ClinicalTrialCoordinator.construct (studies : List Study) (study_id : String) :
    Except String ClinicalTrialCoordinator :=
  let criteria := load_trial_criteria studies study_id
  match get_study_details studies study_id with
  | none => Except.error ("Study " ++ study_id ++ " not found")
  | some _ =>
    Except.ok { study_id := study_id, trial_criteria := criteria,
                conversation_state := "greeting", current_criteria_index := 0 }

/-- `ClinicalTrialCoordinator._handle_state_transition`. -/
def ClinicalTrialCoordinator.handle_state_transition (state new_state : String) : String :=
  if new_state = "questioning" then "asking_questions"
  else if new_state = "submission" then "awaiting_submission"
  else if new_state = "evaluation" then "evaluating"
  else if new_state = "completed" then "completed"
  else state

/-- State/response logic of `ClinicalTrialCoordinator._handle_consent_phase`:
`resp` is the consent agent's response; on the questioning transition the
coordinator returns the questioning agent's first question instead. -/
def ClinicalTrialCoordinator.handle_consent_phase (state : String)
    (resp first_question : TurnResponse) : String × TurnResponse :=
  if resp.transition_to = some "questioning" then ("asking_questions", first_question)
  else if resp.consent_rejected || resp.is_final then ("completed", resp)
  else (state, resp)

/-- State/response logic of `ClinicalTrialCoordinator._handle_questioning_phase`
(the index sync is not modelled here; `resp` is the questioning agent's
response). -/
def ClinicalTrialCoordinator.handle_questioning_phase (state : String)
    (resp : TurnResponse) : String × TurnResponse :=
  if resp.transition_to = some "submission" then ("awaiting_submission", resp)
  else if resp.consent_rejected || resp.is_final then ("completed", resp)
  else (state, resp)

/-- State/response logic of `ClinicalTrialCoordinator._handle_submission_phase`. -/
def ClinicalTrialCoordinator.handle_submission_phase (state : String)
    (resp : TurnResponse) : String × TurnResponse :=
  if resp.transition_to = some "evaluation" then ("evaluating", resp)
  else if resp.consent_rejected || resp.is_final then ("completed", resp)
  else (state, resp)

/-- Response of `ClinicalTrialCoordinator._handle_evaluation_completion`. -/
def ClinicalTrialCoordinator.evaluation_completion_response (n : ℕ) : TurnResponse :=
  { content := evaluationCompletionContent,
    requires_response := false,
    is_final := true,
    question_number := some n,
    total_questions := n }

/-- The coordinator's default fallback response for unrecognised states. -/
def ClinicalTrialCoordinator.fallback_response (n : ℕ) : TurnResponse :=
  { content := interviewCompletedContent,
    requires_response := false,
    is_final := true,
    question_number := some n,
    total_questions := n }

/-- State-transition logic of `ClinicalTrialCoordinator.process_user_response`
for one turn: route by state to the phase handler (`resp` being the response
the active agent returns for this turn, `first_question` the questioning
agent's initial message used by the consent handler), then apply
`_handle_state_transition` if the returned response carries `transition_to`.
Returns the new `conversation_state` and the returned response. -/
def ClinicalTrialCoordinator.process_user_response (state : String)
    (resp first_question : TurnResponse) (total : ℕ) : String × TurnResponse :=
  let step :=
    if state = "waiting_consent" ∨ state = "consent_clarification" then
      ClinicalTrialCoordinator.handle_consent_phase state resp first_question
    else if state = "asking_questions" ∨ state = "questioning" then
      ClinicalTrialCoordinator.handle_questioning_phase state resp
    else if state = "awaiting_submission" ∨ state = "submission" then
      ClinicalTrialCoordinator.handle_submission_phase state resp
    else if state = "evaluating" then
      ("completed", ClinicalTrialCoordinator.evaluation_completion_response total)
    else
      (state, ClinicalTrialCoordinator.fallback_response total)
  match step.2.transition_to with
  | some t => (ClinicalTrialCoordinator.handle_state_transition step.1 t, step.2)
  | none => step

/-- The conversation states in which a phase agent's response is consulted by
the coordinator. -/
def agentStates : List String :=
  ["waiting_consent", "consent_clarification", "asking_questions", "questioning",
   "awaiting_submission", "submission"]

/-- Concrete agent response carrying both a transition signal and `is_final`. -/
def ceTransitionFinalResp : TurnResponse :=
  { content := "done", requires_response := false, is_final := true,
    transition_to := some "submission", total_questions := 1 }

/-- Concrete single-criterion list for counterexamples and witnesses. -/
def ceCriteria : List TrialCriteria := [critAge]

/-- Concrete questioning turn: whitespace-only input classified as answer. -/
def ceWhitespaceTurn : QTurn :=
  { user_input := " ", intent := "answer", unclear_content := "" }

lemma isImmediateReject_eq_true {q : Priority × Bool × ℚ} :
    isImmediateReject q = true ↔
      q.1 = Priority.high ∧ q.2.1 = false ∧ HIGH_PRIORITY_CONFIDENCE_THRESHOLD ≤ q.2.2 := by
  simp [isImmediateReject, Bool.and_eq_true, decide_eq_true_eq, and_assoc]

/-- Claim C1: if any judgment triple in the input has priority high,
meets_criteria false and confidence at least 0.8, then
`EligibilityEvaluator.decide` returns "Reject", whatever the other triples
are. -/
theorem decide_immediate_reject (qs : List (Priority × Bool × ℚ))
    (q : Priority × Bool × ℚ) (hmem : q ∈ qs) (hcat : q.1 = Priority.high)
    (hres : q.2.1 = false) (hconf : HIGH_PRIORITY_CONFIDENCE_THRESHOLD ≤ q.2.2) :
    EligibilityEvaluator.decide qs = "Reject" := by
  have hany : qs.any isImmediateReject = true :=
    List.any_eq_true.mpr ⟨q, hmem, isImmediateReject_eq_true.mpr ⟨hcat, hres, hconf⟩⟩
  simp [EligibilityEvaluator.decide, hany]

/-- Witness for claim C1 at a concrete input: one strong high-priority failure
among otherwise positive judgments forces "Reject". -/
theorem decide_immediate_reject_witness :
    EligibilityEvaluator.decide
      [(Priority.medium, true, 1), (Priority.high, false, 9/10), (Priority.low, true, 1)]
      = "Reject" :=
  decide_immediate_reject _ (Priority.high, false, 9/10) (by simp) rfl rfl
    (by norm_num [HIGH_PRIORITY_CONFIDENCE_THRESHOLD])

/-- Claim C2: with no immediate-reject triple present, `decide` returns
"Accept" exactly when the weighted total (sign times confidence times weight,
with weights 5, 2.5, 1) is at least 0. -/
theorem decide_weighted_threshold (qs : List (Priority × Bool × ℚ))
    (hno : ∀ q ∈ qs,
      ¬(q.1 = Priority.high ∧ q.2.1 = false ∧ HIGH_PRIORITY_CONFIDENCE_THRESHOLD ≤ q.2.2)) :
    (EligibilityEvaluator.decide qs = "Accept" ↔ 0 ≤ totalScore qs) := by
  have hany : qs.any isImmediateReject = false := by
    rw [Bool.eq_false_iff]
    intro h
    obtain ⟨q, hq, hrej⟩ := List.any_eq_true.mp h
    exact hno q hq (isImmediateReject_eq_true.mp hrej)
  rw [EligibilityEvaluator.decide, hany]
  simp only [Bool.false_eq_true, if_false, DECISION_THRESHOLD]
  by_cases hle : 0 ≤ totalScore qs
  · simp [hle]
  · simp [hle]

/-- Witness for claim C2 at a concrete input: a single met medium-priority
criterion with full confidence scores 2.5 and is accepted. -/
theorem decide_weighted_threshold_witness :
    EligibilityEvaluator.decide [(Priority.medium, true, 1)] = "Accept" ↔
      0 ≤ totalScore [(Priority.medium, true, 1)] :=
  decide_weighted_threshold [(Priority.medium, true, 1)] (by decide)

lemma any_eq_of_perm {α : Type} {p : α → Bool} {l₁ l₂ : List α} (h : l₁.Perm l₂) :
    l₁.any p = l₂.any p := by
  cases e₁ : l₁.any p <;> cases e₂ : l₂.any p <;> try rfl
  · obtain ⟨x, hx, hpx⟩ := List.any_eq_true.mp e₂
    have := List.any_eq_true.mpr ⟨x, h.mem_iff.mpr hx, hpx⟩
    rw [e₁] at this
    exact absurd this (by simp)
  · obtain ⟨x, hx, hpx⟩ := List.any_eq_true.mp e₁
    have := List.any_eq_true.mpr ⟨x, h.mem_iff.mp hx, hpx⟩
    rw [e₂] at this
    exact absurd this (by simp)

/-- Claim C3: `decide` is a pure, deterministic function of its input list
(calling it twice on the same list gives the same string), and it is invariant
under permutation of the input list. -/
theorem decide_deterministic_order_independent :
    (∀ qs : List (Priority × Bool × ℚ),
      EligibilityEvaluator.decide qs = EligibilityEvaluator.decide qs) ∧
    (∀ qs qs' : List (Priority × Bool × ℚ), qs.Perm qs' →
      EligibilityEvaluator.decide qs = EligibilityEvaluator.decide qs') := by
  constructor
  · intro qs; rfl
  · intro qs qs' h
    have hany : qs.any isImmediateReject = qs'.any isImmediateReject := any_eq_of_perm h
    have hsum : totalScore qs = totalScore qs' := (h.map scoreOf).sum_eq
    rw [EligibilityEvaluator.decide, EligibilityEvaluator.decide, hany, hsum]

/-- Witness for claim C3 at a concrete input: swapping two judgments does not
change the decision. -/
theorem decide_deterministic_order_independent_witness :
    EligibilityEvaluator.decide [(Priority.high, true, 1/2), (Priority.low, false, 1/4)] =
      EligibilityEvaluator.decide [(Priority.low, false, 1/4), (Priority.high, true, 1/2)] :=
  decide_deterministic_order_independent.2 _ _
    (List.Perm.swap (Priority.low, false, 1/4) (Priority.high, true, 1/2) [])

/-- Claim C7: a failing judge call for one criterion is replaced, for that
criterion alone, by the conservative default judgment (meets_criteria false,
confidence 0, error reasoning), while every successfully judged criterion keeps
its judge output, the result list still has one entry per answered criterion,
and the overall verdict is still computed from the assembled triples. -/
theorem evaluate_isolates_judge_failures
    (judge : TrialCriteria → String → Except String JudgeOutput)
    (criteria : List TrialCriteria) (session : ParticipantSession) :
    (EligibilityEvaluator.evaluate_eligibility judge criteria session).criteria_met.length =
      (answeredCriteria criteria session).length ∧
    (∀ c ∈ answeredCriteria criteria session, ∀ e : String,
      judge c (getResponse session c.id) = Except.error e →
        ({ criteria_id := c.id, criteria_text := c.text, criteria_question := c.question,
           expected_response := c.expected_response, priority := c.priority,
           participant_response := getResponse session c.id, meets_criteria := false,
           confidence := 0, reasoning := "Evaluation error: " ++ e,
           extracted_value := none } : CriteriaResult) ∈
          (EligibilityEvaluator.evaluate_eligibility judge criteria session).criteria_met) ∧
    (∀ c ∈ answeredCriteria criteria session, ∀ j : JudgeOutput,
      judge c (getResponse session c.id) = Except.ok j →
        ({ criteria_id := c.id, criteria_text := c.text, criteria_question := c.question,
           expected_response := c.expected_response, priority := c.priority,
           participant_response := getResponse session c.id,
           meets_criteria := j.meets_criteria, confidence := j.confidence,
           reasoning := j.reasoning, extracted_value := j.extracted_value } : CriteriaResult) ∈
          (EligibilityEvaluator.evaluate_eligibility judge criteria session).criteria_met) ∧
    (EligibilityEvaluator.evaluate_eligibility judge criteria session).decision_algorithm_result
      = EligibilityEvaluator.decide (assembleQuestions criteria
          (EligibilityEvaluator.evaluate_eligibility judge criteria session).criteria_met) := by
  refine ⟨?_, ?_, ?_, ?_⟩
  · simp [EligibilityEvaluator.evaluate_eligibility]
  · intro c hc e herr
    have : evaluateSingleCriteria judge c (getResponse session c.id) =
        { criteria_id := c.id, criteria_text := c.text, criteria_question := c.question,
          expected_response := c.expected_response, priority := c.priority,
          participant_response := getResponse session c.id, meets_criteria := false,
          confidence := 0, reasoning := "Evaluation error: " ++ e, extracted_value := none } := by
      rw [evaluateSingleCriteria, herr]
    show _ ∈ (answeredCriteria criteria session).map
      (fun c => evaluateSingleCriteria judge c (getResponse session c.id))
    exact List.mem_map.mpr ⟨c, hc, this⟩
  · intro c hc j hok
    have : evaluateSingleCriteria judge c (getResponse session c.id) =
        { criteria_id := c.id, criteria_text := c.text, criteria_question := c.question,
          expected_response := c.expected_response, priority := c.priority,
          participant_response := getResponse session c.id,
          meets_criteria := j.meets_criteria, confidence := j.confidence,
          reasoning := j.reasoning, extracted_value := j.extracted_value } := by
      rw [evaluateSingleCriteria, hok]
    show _ ∈ (answeredCriteria criteria session).map
      (fun c => evaluateSingleCriteria judge c (getResponse session c.id))
    exact List.mem_map.mpr ⟨c, hc, this⟩
  · rfl

/-- Witness for claim C7 at a concrete input: with two answered criteria and a
judge that fails on the first, the result list still contains the conservative
default entry for the failing criterion. -/
theorem evaluate_isolates_judge_failures_witness :
    ({ criteria_id := "age", criteria_text := "Age 18-75",
       criteria_question := "What is your age?",
       expected_response := "A number between 18 and 75", priority := Priority.high,
       participant_response := "I am 30", meets_criteria := false, confidence := 0,
       reasoning := "Evaluation error: " ++ "boom", extracted_value := none } : CriteriaResult) ∈
      (EligibilityEvaluator.evaluate_eligibility judgeAgeFails [critAge, critSmoke]
        sessionTwoAnswers).criteria_met :=
  (evaluate_isolates_judge_failures judgeAgeFails [critAge, critSmoke]
    sessionTwoAnswers).2.1 critAge (by decide) "boom" rfl

/-- Claim C10: `decide` on the empty list returns "Accept" (total 0 meets the
default threshold 0), and `evaluate_eligibility` on a session where no
criterion has a non-empty stored response yields `eligible = true` with legacy
score 0. -/
theorem decide_empty_accept
    : EligibilityEvaluator.decide [] = "Accept" ∧
      ∀ (judge : TrialCriteria → String → Except String JudgeOutput)
        (criteria : List TrialCriteria) (session : ParticipantSession),
        (∀ c ∈ criteria, getResponse session c.id = "") →
        (EligibilityEvaluator.evaluate_eligibility judge criteria session).eligible = true ∧
        (EligibilityEvaluator.evaluate_eligibility judge criteria session).score = 0 := by
  constructor
  · rfl
  · intro judge criteria session h
    have hans : answeredCriteria criteria session = [] := by
      rw [answeredCriteria, List.filter_eq_nil_iff]
      intro c hc
      simp [h c hc]
    constructor
    · simp [EligibilityEvaluator.evaluate_eligibility, hans, foundPairs, assembleQuestions,
        EligibilityEvaluator.decide, totalScore, DECISION_THRESHOLD]
    · simp [EligibilityEvaluator.evaluate_eligibility, hans, foundPairs, assembleQuestions,
        round1]

/-- Witness for claim C10 at a concrete input: the empty session over one
criterion is accepted with score 0. -/
theorem decide_empty_accept_witness :
    (EligibilityEvaluator.evaluate_eligibility judgeAgeFails [critAge] sessionEmpty).eligible
      = true ∧
    (EligibilityEvaluator.evaluate_eligibility judgeAgeFails [critAge] sessionEmpty).score = 0 :=
  decide_empty_accept.2 judgeAgeFails [critAge] sessionEmpty (by decide)

/-- Claim C5: a repeat_previous classification at index 0 leaves the agent
state (index and session responses) unchanged and produces exactly the
response that a repeat_current classification would produce. -/
theorem repeat_previous_at_zero_noop (criteria : List TrialCriteria) (st : QuestioningState)
    (u uc : String) (h : st.current_criteria_index = 0) :
    (QuestioningAgent.process_input criteria st u "repeat_previous" uc).1 = st ∧
    QuestioningAgent.process_input criteria st u "repeat_previous" uc =
      QuestioningAgent.process_input criteria st u "repeat_current" uc := by
  by_cases hl : 0 < criteria.length
  · have hlt : st.current_criteria_index < criteria.length := by omega
    constructor <;> simp [QuestioningAgent.process_input, hlt, h, hl]
  · have hlt : ¬ st.current_criteria_index < criteria.length := by omega
    constructor <;> simp [QuestioningAgent.process_input, hlt]

/-- Witness for claim C5 at a concrete input. -/
theorem repeat_previous_at_zero_noop_witness :
    (QuestioningAgent.process_input ceCriteria ⟨0, initResponses⟩ "go back"
      "repeat_previous" "x").1 = ⟨0, initResponses⟩ ∧
    QuestioningAgent.process_input ceCriteria ⟨0, initResponses⟩ "go back"
      "repeat_previous" "x" =
      QuestioningAgent.process_input ceCriteria ⟨0, initResponses⟩ "go back"
        "repeat_current" "x" :=
  repeat_previous_at_zero_noop ceCriteria ⟨0, initResponses⟩ "go back" "x" rfl

/-- Claim C6: fail-open defaults.  During questioning a classifier failure or
an out-of-taxonomy label is classified as answer, any intent string outside the
handled taxonomy makes `process_input` behave exactly as "answer" does (storing
the stripped input under the current criterion's id and incrementing the
index); during submission a classifier failure or out-of-taxonomy label is
classified as repeat_instruction, whose branch re-emits the submission prompt
and leaves the session responses unchanged. -/
theorem fail_open_defaults :
    (∀ (llm : Option String) (u : String), pyStrip u ≠ "Ambiguous sound." →
      (llm = none ∨ ∃ raw, llm = some raw ∧ pyLower (pyStrip raw) ∉
        (["repeat_current", "repeat_previous", "decline", "answer", "unclear"] : List String)) →
      QuestioningAgent.classify_user_intent llm u = "answer") ∧
    (∀ (criteria : List TrialCriteria) (st : QuestioningState) (u it uc : String),
      it ∉ (["ambiguous", "unclear", "decline", "repeat_current", "repeat_previous",
        "answer"] : List String) →
      QuestioningAgent.process_input criteria st u it uc =
        QuestioningAgent.process_input criteria st u "answer" uc) ∧
    (∀ (criteria : List TrialCriteria) (st : QuestioningState) (u it uc : String),
      ∀ h : st.current_criteria_index < criteria.length,
      it ∉ (["ambiguous", "unclear", "decline", "repeat_current",
        "repeat_previous"] : List String) →
      (QuestioningAgent.process_input criteria st u it uc).1 =
        ⟨st.current_criteria_index + 1,
         setResponse st.responses (criteria.get ⟨st.current_criteria_index, h⟩).id (pyStrip u)⟩) ∧
    (∀ (llm : Option String) (u : String), pyStrip u ≠ "Ambiguous sound." →
      (llm = none ∨ ∃ raw, llm = some raw ∧ pyLower (pyStrip raw) ∉
        (["repeat_instruction", "submit", "decline", "study_question",
          "unclear"] : List String)) →
      SubmissionAgent.classify_submission_user_intent llm u = "repeat_instruction") ∧
    (∀ (criteria : List TrialCriteria) (responses : String → Option String) (u uc : String),
      SubmissionAgent.process_input criteria responses u "repeat_instruction" uc =
        (responses, SubmissionAgent.initial_message criteria)) := by
  refine ⟨?_, ?_, ?_, ?_, ?_⟩
  · intro llm u hu hbad
    rcases hbad with hnone | ⟨raw, hraw, hmem⟩
    · subst hnone
      simp [QuestioningAgent.classify_user_intent, hu]
    · subst hraw
      simp only [List.mem_cons, List.not_mem_nil, or_false, not_or] at hmem
      obtain ⟨h1, h2, h3, h4, h5⟩ := hmem
      simp [QuestioningAgent.classify_user_intent, hu, h1, h2, h3, h4, h5]
  · intro criteria st u it uc hmem
    simp only [List.mem_cons, List.not_mem_nil, or_false, not_or] at hmem
    obtain ⟨h1, h2, h3, h4, h5, h6⟩ := hmem
    by_cases h : st.current_criteria_index < criteria.length
    · simp [QuestioningAgent.process_input, h, h1, h2, h3, h4, h5, h6]
    · simp [QuestioningAgent.process_input, h]
  · intro criteria st u it uc h hmem
    simp only [List.mem_cons, List.not_mem_nil, or_false, not_or] at hmem
    obtain ⟨h1, h2, h3, h4, h5⟩ := hmem
    by_cases h6 : it = "answer" <;>
      by_cases h7 : st.current_criteria_index + 1 < criteria.length <;>
        simp [QuestioningAgent.process_input, h, h1, h2, h3, h4, h5, h6, h7]
  · intro llm u hu hbad
    rcases hbad with hnone | ⟨raw, hraw, hmem⟩
    · subst hnone
      simp [SubmissionAgent.classify_submission_user_intent, hu]
    · subst hraw
      simp only [List.mem_cons, List.not_mem_nil, or_false, not_or] at hmem
      obtain ⟨h1, h2, h3, h4, h5⟩ := hmem
      simp [SubmissionAgent.classify_submission_user_intent, hu, h1, h2, h3, h4, h5]
  · intro criteria responses u uc
    simp [SubmissionAgent.process_input, SubmissionAgent.initial_message]

/-- Witness for claim C6 at concrete inputs: an out-of-taxonomy label during
questioning classifies as answer and is processed as an answer; a failed
classifier call during submission classifies as repeat_instruction. -/
theorem fail_open_defaults_witness :
    QuestioningAgent.classify_user_intent (some "banana") "hello" = "answer" ∧
    SubmissionAgent.classify_submission_user_intent none "hello" = "repeat_instruction" ∧
    (QuestioningAgent.process_input ceCriteria ⟨0, initResponses⟩ " yes " "banana" "").1 =
      ⟨1, setResponse initResponses "age" (pyStrip " yes ")⟩ :=
  ⟨fail_open_defaults.1 (some "banana") "hello" (by decide)
      (Or.inr ⟨"banana", rfl, by decide⟩),
   fail_open_defaults.2.2.2.1 none "hello" (by decide) (Or.inl rfl),
   fail_open_defaults.2.2.1 ceCriteria ⟨0, initResponses⟩ " yes " "banana" ""
      (by decide) (by decide)⟩

/-- Claim C8 (amended): if the active agent's turn response carries
consent_rejected or is_final and carries no transition_to signal — which is the
case for every flagged response the three agents actually build — the
coordinator's conversation state becomes completed after the turn.  (When a
transition_to signal is also present, the transition takes precedence; see the
counterexample.) -/
theorem final_or_rejected_completes (state : String) (resp fq : TurnResponse) (n : ℕ)
    (hstate : state ∈ agentStates)
    (hflag : resp.consent_rejected = true ∨ resp.is_final = true)
    (htrans : resp.transition_to = none) :
    (ClinicalTrialCoordinator.process_user_response state resp fq n).1 = "completed" := by
  have hb : (resp.consent_rejected || resp.is_final) = true := by
    rcases hflag with h | h <;> simp [h]
  simp only [agentStates, List.mem_cons, List.not_mem_nil, or_false] at hstate
  rcases hstate with rfl | rfl | rfl | rfl | rfl | rfl <;>
    simp [ClinicalTrialCoordinator.process_user_response,
      ClinicalTrialCoordinator.handle_consent_phase,
      ClinicalTrialCoordinator.handle_questioning_phase,
      ClinicalTrialCoordinator.handle_submission_phase, htrans, hb]

/-- Witness for claim C8 at a concrete input: a final, consent-rejected
response during questioning completes the conversation. -/
theorem final_or_rejected_completes_witness :
    (ClinicalTrialCoordinator.process_user_response "asking_questions"
      { content := "bye", requires_response := false, is_final := true,
        consent_rejected := true, total_questions := 1 }
      (ClinicalTrialCoordinator.fallback_response 1) 1).1 = "completed" :=
  final_or_rejected_completes "asking_questions"
    { content := "bye", requires_response := false, is_final := true,
      consent_rejected := true, total_questions := 1 }
    (ClinicalTrialCoordinator.fallback_response 1) 1 (by simp [agentStates])
    (Or.inl rfl) rfl

/-- Counterexample to claim C8 as stated: a questioning-phase response that
carries is_final = true together with transition_to = "submission" leaves the
coordinator in awaiting_submission, not completed — the transition check comes
first and returns early, so the code does not force completed "regardless of
transition_to". -/
theorem transition_overrides_final_counterexample :
    ceTransitionFinalResp.is_final = true ∧
    (ClinicalTrialCoordinator.process_user_response "asking_questions" ceTransitionFinalResp
      (ClinicalTrialCoordinator.fallback_response 1) 1).1 = "awaiting_submission" :=
  ⟨rfl, rfl⟩

/-- Claim C9 (amended): a turn dispatched to the questioning agent with the
index already past the end of the criteria list yields the terminal
"Interview completed" response (no exception), while constructing the
coordinator for a study identifier that does not exist raises
ValueError("Study ... not found") — modelled as an error result — rather than
producing a turn response. -/
theorem structural_fallbacks :
    (∀ (criteria : List TrialCriteria) (st : QuestioningState) (u it uc : String),
      criteria.length ≤ st.current_criteria_index →
      QuestioningAgent.process_input criteria st u it uc =
        (st, { content := interviewCompletedContent, requires_response := false,
               is_final := true, question_number := some criteria.length,
               total_questions := criteria.length })) ∧
    (∀ (studies : List Study) (sid : String), get_study_details studies sid = none →
      ClinicalTrialCoordinator.construct studies sid =
        Except.error ("Study " ++ sid ++ " not found")) := by
  constructor
  · intro criteria st u it uc hge
    have h : ¬ st.current_criteria_index < criteria.length := by omega
    simp [QuestioningAgent.process_input, h]
  · intro studies sid hnone
    simp [ClinicalTrialCoordinator.construct, hnone]

/-- Witness for claim C9 at concrete inputs. -/
theorem structural_fallbacks_witness :
    QuestioningAgent.process_input ceCriteria ⟨1, initResponses⟩ "hi" "answer" "" =
      (⟨1, initResponses⟩,
       { content := interviewCompletedContent, requires_response := false,
         is_final := true, question_number := some 1, total_questions := 1 }) ∧
    ClinicalTrialCoordinator.construct [{ id := "s1", criteria := ceCriteria }] "nope" =
      Except.error ("Study " ++ "nope" ++ " not found") :=
  ⟨structural_fallbacks.1 ceCriteria ⟨1, initResponses⟩ "hi" "answer" "" (by decide),
   structural_fallbacks.2 [{ id := "s1", criteria := ceCriteria }] "nope" rfl⟩

/-- Counterexample to claim C9 as stated: for a nonexistent study identifier
the coordinator constructor raises (returns an error), instead of surfacing a
terminal "interview completed" turn response. -/
theorem nonexistent_study_raises_counterexample :
    ClinicalTrialCoordinator.construct [] "unknown_study" =
      Except.error ("Study " ++ "unknown_study" ++ " not found") := rfl

lemma QInv_init (criteria : List TrialCriteria) : QInv criteria ⟨0, initResponses⟩ :=
  ⟨Nat.zero_le _, fun i _ hlt => absurd (show i < 0 from hlt) (Nat.not_lt_zero i)⟩

lemma QInv_set (criteria : List TrialCriteria) (st : QuestioningState)
    (h : st.current_criteria_index < criteria.length) (v : String)
    (hinv : QInv criteria st) :
    QInv criteria
      ⟨st.current_criteria_index + 1,
       setResponse st.responses (criteria.get ⟨st.current_criteria_index, h⟩).id v⟩ := by
  obtain ⟨hle, hres⟩ := hinv
  constructor
  · show st.current_criteria_index + 1 ≤ criteria.length
    omega
  · intro i hi hlt
    replace hlt : i < st.current_criteria_index + 1 := hlt
    show setResponse st.responses (criteria.get ⟨st.current_criteria_index, h⟩).id v
        (criteria.get ⟨i, hi⟩).id ≠ none ∨
      ∃ j : ℕ, ∃ hj : j < criteria.length, st.current_criteria_index + 1 ≤ j ∧
        (criteria.get ⟨j, hj⟩).id = (criteria.get ⟨i, hi⟩).id
    by_cases hk : criteria[i].id = criteria[st.current_criteria_index].id
    · left
      simp [setResponse, hk]
    · have hne : i ≠ st.current_criteria_index := by
        intro he
        apply hk
        subst he
        rfl
      rcases hres i hi (by omega) with hsome | ⟨j, hj, hjge, hjid⟩
      · left
        simpa [setResponse, hk] using hsome
      · have hjne : j ≠ st.current_criteria_index := by
          intro he
          apply hk
          subst he
          exact hjid.symm
        exact Or.inr ⟨j, hj, by omega, hjid⟩

lemma QInv_delete (criteria : List TrialCriteria) (st : QuestioningState)
    (h : st.current_criteria_index < criteria.length)
    (h0 : 0 < st.current_criteria_index) (hinv : QInv criteria st) :
    QInv criteria
      ⟨st.current_criteria_index - 1,
       deleteResponse st.responses
         (criteria.get ⟨st.current_criteria_index - 1, by omega⟩).id⟩ := by
  obtain ⟨hle, hres⟩ := hinv
  constructor
  · show st.current_criteria_index - 1 ≤ criteria.length
    omega
  · intro i hi hlt
    replace hlt : i < st.current_criteria_index - 1 := hlt
    show deleteResponse st.responses
        (criteria.get ⟨st.current_criteria_index - 1, by omega⟩).id
        (criteria.get ⟨i, hi⟩).id ≠ none ∨
      ∃ j : ℕ, ∃ hj : j < criteria.length, st.current_criteria_index - 1 ≤ j ∧
        (criteria.get ⟨j, hj⟩).id = (criteria.get ⟨i, hi⟩).id
    by_cases hk : criteria[i].id = criteria[st.current_criteria_index - 1].id
    · exact Or.inr ⟨st.current_criteria_index - 1, by omega, le_refl _, hk.symm⟩
    · rcases hres i hi (by omega) with hsome | ⟨j, hj, hjge, hjid⟩
      · left
        simpa [deleteResponse, hk] using hsome
      · exact Or.inr ⟨j, hj, by omega, hjid⟩

lemma QInv_step (criteria : List TrialCriteria) (st : QuestioningState)
    (u it uc : String) (hinv : QInv criteria st) :
    QInv criteria (QuestioningAgent.process_input criteria st u it uc).1 := by
  by_cases h : st.current_criteria_index < criteria.length
  · by_cases h1 : it = "ambiguous"
    · simpa [QuestioningAgent.process_input, h, h1] using hinv
    by_cases h2 : it = "unclear"
    · simpa [QuestioningAgent.process_input, h, h1, h2] using hinv
    by_cases h3 : it = "decline"
    · simpa [QuestioningAgent.process_input, h, h1, h2, h3] using hinv
    by_cases h4 : it = "repeat_current"
    · simpa [QuestioningAgent.process_input, h, h1, h2, h3, h4] using hinv
    by_cases h5 : it = "repeat_previous"
    · by_cases h0 : 0 < st.current_criteria_index
      · have := QInv_delete criteria st h h0 hinv
        simpa [QuestioningAgent.process_input, h, h1, h2, h3, h4, h5, h0] using this
      · simpa [QuestioningAgent.process_input, h, h1, h2, h3, h4, h5, h0] using hinv
    · have hset := QInv_set criteria st h (pyStrip u) hinv
      by_cases h6 : it = "answer" <;>
        by_cases h7 : st.current_criteria_index + 1 < criteria.length <;>
          simpa [QuestioningAgent.process_input, h, h1, h2, h3, h4, h5, h6, h7] using hset
  · simpa [QuestioningAgent.process_input, h] using hinv

lemma QInv_run (criteria : List TrialCriteria) (turns : List QTurn)
    (st : QuestioningState) (hinv : QInv criteria st) :
    QInv criteria (runQuestioning criteria turns st) := by
  induction turns generalizing st with
  | nil => simpa [runQuestioning] using hinv
  | cons t ts ih =>
    exact ih _ (QInv_step criteria st t.user_input t.intent t.unclear_content hinv)

/-- Claim C4 (amended): over any sequence of `process_input` calls starting
from a fresh questioning agent, the criteria index stays within
`[0, criteria.length]`, and when it equals `criteria.length` every criterion's
id has a stored response (the stored response may be the empty string — see the
counterexample to the original claim). -/
theorem questioning_index_bounds (criteria : List TrialCriteria) (turns : List QTurn) :
    (runQuestioning criteria turns ⟨0, initResponses⟩).current_criteria_index
      ≤ criteria.length ∧
    ((runQuestioning criteria turns ⟨0, initResponses⟩).current_criteria_index
        = criteria.length →
      ∀ c ∈ criteria,
        (runQuestioning criteria turns ⟨0, initResponses⟩).responses c.id ≠ none) := by
  obtain ⟨hle, hres⟩ := QInv_run criteria turns ⟨0, initResponses⟩ (QInv_init criteria)
  refine ⟨hle, ?_⟩
  intro hfull c hc
  obtain ⟨n, rfl⟩ := List.mem_iff_get.mp hc
  rcases hres n.1 n.2 (by omega) with hsome | ⟨j, hj, hjge, _⟩
  · exact hsome
  · omega

/-- Witness for claim C4 at a concrete input: after answering the single
criterion, its id has a stored response. -/
theorem questioning_index_bounds_witness :
    (runQuestioning ceCriteria [⟨"I am 30", "answer", ""⟩]
      ⟨0, initResponses⟩).responses "age" ≠ none :=
  (questioning_index_bounds ceCriteria [⟨"I am 30", "answer", ""⟩]).2 (by decide)
    critAge (by decide)

/-- Counterexample to claim C4 as stated: a whitespace-only input classified as
answer stores the empty string, so the index reaches `criteria.length` while
the criterion's stored response is empty, contradicting "only when every
criterion's id has a stored, non-empty response". -/
theorem questioning_empty_answer_counterexample :
    (runQuestioning ceCriteria [ceWhitespaceTurn]
        ⟨0, initResponses⟩).current_criteria_index = ceCriteria.length ∧
    (runQuestioning ceCriteria [ceWhitespaceTurn] ⟨0, initResponses⟩).responses "age"
      = some "" := by
  constructor <;> rfl
